import Mathlib

/-!
Verification of the `verzugszinsrechner` repository (Swiss default-interest
calculator plus an offline-bundle build script) against its specification.

Embedding conventions:
* JavaScript strings are modelled as `List Char` (`Str` below).
* JavaScript numbers are modelled as exact rationals `ℚ`; the spec states all
  arithmetic formulas in exact arithmetic, and this development follows it.
  `Math.round` is modelled per ECMA-262 as `x ↦ ⌊x + 1/2⌋` (ties toward `+∞`).
* `Date` values are modelled by their millisecond timestamps (`ℤ`); JavaScript
  relational operators and subtraction on `Date` operate on exactly this value.
* `Math.pow` is a platform floating-point primitive; it is taken as an explicit
  function parameter `pow : ℚ → ℚ → ℚ` of `calculateCompoundInterest`, so the
  theorems hold for every implementation of the primitive.
* Filesystem reads performed by the build script are modelled by finite maps
  from path strings to optional file contents.
-/

/-- JavaScript strings as lists of characters. -/
abbrev Str := List Char

deriving instance DecidableEq for Except

/-- The ASCII apostrophe character (U+0027), written via its code point. -/
def aposChar : Char := Char.ofNat 0x27

/-- `Math.round` of ECMA-262 on exact rationals: `⌊x + 1/2⌋`, ties toward `+∞`
(`Math.round(0.5) = 1`, `Math.round(-0.5) = -0`).  Stated via the executable
`Rat.floor`; `jsRound_eq_floor` below identifies it with `⌊x + 1/2⌋`. -/
def jsRound (x : ℚ) : ℤ := (x + 1/2).floor

theorem jsRound_eq_floor (x : ℚ) : jsRound x = ⌊x + 1/2⌋ := by
  unfold jsRound
  rw [Rat.floor_def']
  exact (Rat.floor_def (q := x + 1/2)).symm

/-- `Math.round(x * 100) / 100`: rounding to 2 decimal places as done in
`calculations.js` lines 33-34, 75, 77-78. -/
def round2 (x : ℚ) : ℚ := (jsRound (x * 100) : ℚ) / 100

/-- `const msPerDay = 24 * 60 * 60 * 1000` (calculations.js line 24). -/
def msPerDay : ℤ := 24 * 60 * 60 * 1000

/-- Result object of `calculateDefaultInterest` (calculations.js lines 36-45),
field for field. -/
structure DefaultResult where
  principal : ℚ
  startDate : ℤ
  endDate : ℤ
  days : ℤ
  interestRate : ℚ
  interest : ℚ
  total : ℚ
  method : Str
deriving DecidableEq

/-- Result object of `calculateCompoundInterest` (calculations.js lines 70-80),
field for field. -/
structure CompoundResult where
  principal : ℚ
  startDate : ℤ
  endDate : ℤ
  days : ℤ
  years : ℚ
  interestRate : ℚ
  interest : ℚ
  total : ℚ
  method : Str
deriving DecidableEq

/-- `calculateDefaultInterest(principal, startDate, endDate, interestRate)`
(calculations.js lines 14-46).  The JavaScript function returns either
`{ error: ... }` or the result object; this is modelled by `Except`.  The
JavaScript default argument `interestRate = 5` plays no role in the claims and
is left to call sites. -/
def calculateDefaultInterest (principal : ℚ) (startDate endDate : ℤ)
    (interestRate : ℚ) : Except Str DefaultResult :=
  if principal ≤ 0 then
    .error "Principal must be positive".toList
  else if endDate ≤ startDate then
    .error "End date must be after start date".toList
  else
    let totalDays : ℤ := Int.fdiv (endDate - startDate) msPerDay
    let dailyRate : ℚ := interestRate / 100 / 360
    let interest : ℚ := principal * dailyRate * (totalDays : ℚ)
    let roundedInterest : ℚ := round2 interest
    let total : ℚ := round2 (principal + roundedInterest)
    .ok ⟨principal, startDate, endDate, totalDays, interestRate,
         roundedInterest, total, "360-day year".toList⟩

/-- `calculateCompoundInterest(principal, startDate, endDate, interestRate)`
(calculations.js lines 54-81).  `pow` models the platform primitive
`Math.pow`. -/
def calculateCompoundInterest (pow : ℚ → ℚ → ℚ) (principal : ℚ)
    (startDate endDate : ℤ) (interestRate : ℚ) : Except Str CompoundResult :=
  if principal ≤ 0 then
    .error "Principal must be positive".toList
  else if endDate ≤ startDate then
    .error "End date must be after start date".toList
  else
    let totalDays : ℤ := Int.fdiv (endDate - startDate) msPerDay
    let years : ℚ := (totalDays : ℚ) / 365
    let total : ℚ := principal * pow (1 + interestRate / 100) years
    let interest : ℚ := total - principal
    .ok ⟨principal, startDate, endDate, totalDays, round2 years, interestRate,
         round2 interest, round2 total, "compound (annual)".toList⟩

/-- Whether a calculation result carries the error tag. -/
def isErr {α : Type} : Except Str α → Bool
  | .error _ => true
  | .ok _ => false

/-- The `interest` field of a non-error `calculateDefaultInterest` result. -/
def defInterest (r : Except Str DefaultResult) : Option ℚ :=
  match r with
  | .ok v => some v.interest
  | .error _ => none

/-- The `total` field of a non-error `calculateDefaultInterest` result. -/
def defTotal (r : Except Str DefaultResult) : Option ℚ :=
  match r with
  | .ok v => some v.total
  | .error _ => none

/-- `Math.floor` of an exact integer quotient agrees with `Int.fdiv`. -/
theorem fdiv_msPerDay_eq_floor (a : ℤ) :
    Int.fdiv a msPerDay = ⌊(a : ℚ) / (msPerDay : ℚ)⌋ := by
  rw [Int.fdiv_eq_ediv a (by norm_num [msPerDay])]
  have h : ((msPerDay : ℤ) : ℚ) = ((86400000 : ℕ) : ℚ) := by norm_num [msPerDay]
  rw [h, Rat.floor_intCast_div_natCast]
  norm_num [msPerDay]

/-- `round2` is monotone. -/
theorem round2_mono {x y : ℚ} (h : x ≤ y) : round2 x ≤ round2 y := by
  unfold round2
  rw [jsRound_eq_floor, jsRound_eq_floor]
  have : ⌊x * 100 + 1/2⌋ ≤ ⌊y * 100 + 1/2⌋ :=
    Int.floor_le_floor (by nlinarith)
  have hc : ((⌊x * 100 + 1/2⌋ : ℤ) : ℚ) ≤ ((⌊y * 100 + 1/2⌋ : ℤ) : ℚ) := by
    exact_mod_cast this
  linarith

unseal Rat.add Rat.mul Rat.inv Rat.sub in
theorem round2_zero : round2 0 = 0 := by decide

/-- `round2` fixes amounts that are an exact number of hundredths. -/
theorem round2_intCast_div_100 (n : ℤ) : round2 ((n : ℚ) / 100) = (n : ℚ) / 100 := by
  have h12 : ⌊(0 : ℚ) + 1/2⌋ = 0 := by
    rw [Int.floor_eq_iff] ; norm_num
  unfold round2
  rw [jsRound_eq_floor, div_mul_cancel₀ (h := by norm_num)]
  rw [show ((n : ℚ) + 1/2) = (n : ℚ) + ((0 : ℚ) + 1/2) by ring, Int.floor_int_add, h12]
  norm_num

/-- **C1.** For every `principal > 0`, every pair of dates with `startDate`
strictly before `endDate`, and every rate, `calculateDefaultInterest` returns a
non-error result whose `days` field is `floor((endDate - startDate) / 86400000)`,
whose `interest` is `round(principal * rate/100/360 * days, 2)`, whose `total`
is `round(principal + interest, 2)` computed from the already-rounded interest,
whose method label is `"360-day year"`, and which echoes back the principal,
both dates and the rate. -/
theorem calculateDefaultInterest_spec (P : ℚ) (s e : ℤ) (r : ℚ)
    (hP : 0 < P) (hse : s < e) :
    calculateDefaultInterest P s e r =
      .ok ⟨P, s, e, ⌊((e - s : ℤ) : ℚ) / (msPerDay : ℚ)⌋, r,
           round2 (P * (r / 100 / 360) * ((⌊((e - s : ℤ) : ℚ) / (msPerDay : ℚ)⌋ : ℤ) : ℚ)),
           round2 (P + round2 (P * (r / 100 / 360) * ((⌊((e - s : ℤ) : ℚ) / (msPerDay : ℚ)⌋ : ℤ) : ℚ))),
           "360-day year".toList⟩ := by
  rw [calculateDefaultInterest, if_neg (not_le.mpr hP), if_neg (not_le.mpr hse)]
  simp only [fdiv_msPerDay_eq_floor]

-- Witness for C1 on concrete data: CHF 10000 from epoch ms 0 to epoch
-- ms 2678400000 (31 days) at 5 % gives 31 days, interest 43.06, total 10043.06.
unseal Rat.add Rat.mul Rat.inv Rat.sub in
theorem calculateDefaultInterest_spec_witness :
    (0 : ℚ) < 10000 ∧ (0 : ℤ) < 2678400000 ∧
    calculateDefaultInterest 10000 0 2678400000 5 =
      .ok ⟨10000, 0, 2678400000, 31, 5, 4306/100, 1004306/100, "360-day year".toList⟩ := by
  refine ⟨by norm_num, by norm_num, ?_⟩
  rw [calculateDefaultInterest_spec 10000 0 2678400000 5 (by norm_num) (by norm_num)]
  rw [← fdiv_msPerDay_eq_floor]
  decide

/-- **C2.** Both calculation functions return a result tagged as an error with
a descriptive (non-empty) reason whenever `principal ≤ 0`, and likewise
whenever `startDate ≥ endDate`, regardless of the other arguments.  In the
embedding, errors are `Except.error` values carrying only the reason string, so
no partial numeric computation accompanies them and nothing is thrown. -/
theorem interest_error_conditions (pow : ℚ → ℚ → ℚ) (P : ℚ) (s e : ℤ) (r : ℚ)
    (h : P ≤ 0 ∨ e ≤ s) :
    (∃ m, calculateDefaultInterest P s e r = .error m ∧ m ≠ []) ∧
    (∃ m, calculateCompoundInterest pow P s e r = .error m ∧ m ≠ []) := by
  by_cases hP : P ≤ 0
  · exact ⟨⟨_, by rw [calculateDefaultInterest, if_pos hP], by decide⟩,
           ⟨_, by rw [calculateCompoundInterest, if_pos hP], by decide⟩⟩
  · have hse : e ≤ s := h.resolve_left hP
    exact ⟨⟨_, by rw [calculateDefaultInterest, if_neg hP, if_pos hse], by decide⟩,
           ⟨_, by rw [calculateCompoundInterest, if_neg hP, if_pos hse], by decide⟩⟩

-- Witness for C2 at principal = -5 (and a valid date pair).
theorem interest_error_conditions_witness :
    ((-5 : ℚ) ≤ 0 ∨ (1 : ℤ) ≤ 0) ∧
    ((∃ m, calculateDefaultInterest (-5) 0 1 7 = .error m ∧ m ≠ []) ∧
     (∃ m, calculateCompoundInterest (fun a _ => a) (-5) 0 1 7 = .error m ∧ m ≠ [])) :=
  ⟨Or.inl (by norm_num),
   interest_error_conditions (fun a _ => a) (-5) 0 1 7 (Or.inl (by norm_num))⟩

/-- **C3.** For every `principal > 0` and `startDate < endDate`, and for every
implementation `pow` of the `Math.pow` primitive, `calculateCompoundInterest`
computes `days = floor((endDate - startDate) / 86400000)`, elapsed years as
`days / 365` (not 360), total as `principal * pow(1 + rate/100, years)` and
interest as `total - principal`; the returned interest and total are rounded to
2 decimal places, the returned years is rounded to 2 decimal places, and the
method label is `"compound (annual)"`. -/
theorem calculateCompoundInterest_spec (pow : ℚ → ℚ → ℚ) (P : ℚ) (s e : ℤ)
    (r : ℚ) (hP : 0 < P) (hse : s < e) :
    calculateCompoundInterest pow P s e r =
      .ok ⟨P, s, e, ⌊((e - s : ℤ) : ℚ) / (msPerDay : ℚ)⌋,
           round2 (((⌊((e - s : ℤ) : ℚ) / (msPerDay : ℚ)⌋ : ℤ) : ℚ) / 365), r,
           round2 (P * pow (1 + r / 100) (((⌊((e - s : ℤ) : ℚ) / (msPerDay : ℚ)⌋ : ℤ) : ℚ) / 365) - P),
           round2 (P * pow (1 + r / 100) (((⌊((e - s : ℤ) : ℚ) / (msPerDay : ℚ)⌋ : ℤ) : ℚ) / 365)),
           "compound (annual)".toList⟩ := by
  rw [calculateCompoundInterest, if_neg (not_le.mpr hP), if_neg (not_le.mpr hse)]
  simp only [fdiv_msPerDay_eq_floor]

-- Witness for C3 with pow instantiated as multiplication, over exactly 365
-- days: years = 1, total = 100 * (1.05 * 1) = 105, interest = 5.
unseal Rat.add Rat.mul Rat.inv Rat.sub in
theorem calculateCompoundInterest_spec_witness :
    (0 : ℚ) < 100 ∧ (0 : ℤ) < 31536000000 ∧
    calculateCompoundInterest (fun a b => a * b) 100 0 31536000000 5 =
      .ok ⟨100, 0, 31536000000, 365, 1, 5, 5, 105, "compound (annual)".toList⟩ := by
  refine ⟨by norm_num, by norm_num, ?_⟩
  rw [calculateCompoundInterest_spec (fun a b => a * b) 100 0 31536000000 5
    (by norm_num) (by norm_num)]
  rw [← fdiv_msPerDay_eq_floor]
  decide

/-- Modelled from the spec: rounding to 2 decimal places with exact-half cases
rounded away from zero ("round-half-away-from-zero semantics, standard currency
rounding"), the semantics the spec asserts for the interest and total fields.
Used only to compare the rounding of the code against the words of the spec. -/
def roundAwayInt (y : ℚ) : ℤ := if 0 ≤ y then (y + 1/2).floor else -((-y + 1/2).floor)

/-- Rounding to 2 decimals with the half-away-from-zero semantics of the spec. -/
def roundAway2 (x : ℚ) : ℚ := (roundAwayInt (x * 100) : ℚ) / 100

unseal Rat.add Rat.mul Rat.inv Rat.sub in
/-- **C4 (counterexample).** At `principal = 0.16`, one elapsed day and rate
`-1125` the raw interest is `0.16 * (-1125/100/360) * 1 = -0.005`, an exact
half at 2 decimals.  Round-half-away-from-zero gives `-0.01`, but the Math.round based rounding of the code returns `0`, so the claimed rounding semantics fail
on negative values. -/
theorem rounding_half_up_counterexample :
    defInterest (calculateDefaultInterest (16/100) 0 86400000 (-1125)) = some 0 ∧
    roundAway2 ((16/100) * ((-1125 : ℚ) / 100 / 360) * ((1 : ℤ) : ℚ)) = -1/100 ∧
    ((0 : ℚ) ≠ -1/100) := by
  decide

/-- **C4 (amended).** The interest and total fields are each independently
rounded to 2 decimal places with JavaScript `Math.round` semantics — exact
halves rounded toward `+∞` (`x ↦ ⌊x + 1/2⌋` at 2 decimals) — which coincides
with round-half-away-from-zero for every non-negative value, but not for
negative exact halves. -/
theorem rounding_is_half_up (P : ℚ) (s e : ℤ) (r : ℚ) (hP : 0 < P) (hse : s < e) :
    (∃ res, calculateDefaultInterest P s e r = .ok res ∧
      res.interest = round2 (P * (r / 100 / 360) * (res.days : ℚ)) ∧
      res.total = round2 (P + res.interest)) ∧
    (∀ x : ℚ, 0 ≤ x → round2 x = roundAway2 x) := by
  constructor
  · exact ⟨_, by rw [calculateDefaultInterest, if_neg (not_le.mpr hP),
      if_neg (not_le.mpr hse)], rfl, rfl⟩
  · intro x hx
    unfold round2 roundAway2 roundAwayInt jsRound
    rw [if_pos (mul_nonneg hx (by norm_num))]

-- Witness for C4 (amended) at the same concrete data as the C1 witness.
theorem rounding_is_half_up_witness :
    (0 : ℚ) < 10000 ∧ (0 : ℤ) < 2678400000 ∧
    ((∃ res, calculateDefaultInterest 10000 0 2678400000 5 = .ok res ∧
      res.interest = round2 (10000 * ((5 : ℚ) / 100 / 360) * (res.days : ℚ)) ∧
      res.total = round2 (10000 + res.interest)) ∧
    (∀ x : ℚ, 0 ≤ x → round2 x = roundAway2 x)) :=
  ⟨by norm_num, by norm_num,
   rounding_is_half_up 10000 0 2678400000 5 (by norm_num) (by norm_num)⟩

unseal Rat.add Rat.mul Rat.inv Rat.sub in
/-- **C9 (counterexample).** For a sub-day default period the claim asserts
`total == principal`; at `principal = 0.005` (a value with more than two
decimals) the code returns `total = round(0.005, 2) = 0.01 ≠ 0.005`. -/
theorem subday_total_counterexample :
    calculateDefaultInterest (1/200) 0 1 5 =
      .ok ⟨1/200, 0, 1, 0, 5, 0, 1/100, "360-day year".toList⟩ ∧
    ((1/100 : ℚ) ≠ 1/200) := by
  decide

/-- **C9 (amended).** For every `principal > 0` and dates strictly increasing
by less than 24 hours (86,400,000 ms), `calculateDefaultInterest` returns a
non-error result with `days = 0`, `interest = 0` and
`total = round(principal, 2)` — which equals the principal whenever the
principal is an exact number of hundredths. -/
theorem subday_zero_interest (P : ℚ) (s e : ℤ) (r : ℚ) (hP : 0 < P)
    (h1 : s < e) (h2 : e - s < msPerDay) :
    calculateDefaultInterest P s e r =
      .ok ⟨P, s, e, 0, r, 0, round2 P, "360-day year".toList⟩ ∧
    (∀ n : ℤ, P = (n : ℚ) / 100 → round2 P = P) := by
  constructor
  · rw [calculateDefaultInterest, if_neg (not_le.mpr hP), if_neg (not_le.mpr h1)]
    have hD : Int.fdiv (e - s) msPerDay = 0 := by
      rw [Int.fdiv_eq_ediv _ (by norm_num [msPerDay])]
      exact Int.ediv_eq_zero_of_lt (by omega) h2
    rw [hD]
    simp [round2_zero]
  · intro n hn
    rw [hn]
    exact round2_intCast_div_100 n

-- Witness for C9 (amended): principal 100, a 5-second period.
theorem subday_zero_interest_witness :
    (0 : ℚ) < 100 ∧ (0 : ℤ) < 5000 ∧ (5000 : ℤ) - 0 < msPerDay ∧
    (calculateDefaultInterest 100 0 5000 5 =
      .ok ⟨100, 0, 5000, 0, 5, 0, round2 100, "360-day year".toList⟩ ∧
     (∀ n : ℤ, (100 : ℚ) = (n : ℚ) / 100 → round2 100 = 100)) :=
  ⟨by norm_num, by norm_num, by norm_num [msPerDay],
   subday_zero_interest 100 0 5000 5 (by norm_num) (by norm_num)
     (by norm_num [msPerDay])⟩

unseal Rat.add Rat.mul Rat.inv Rat.sub in
/-- **C10 (counterexample).** At `principal = 1`, one elapsed day and rate
`-1`, the result is non-error but its interest field is `0` (the tiny negative
raw interest `-1/36000` rounds up to zero) and its total is `1 = principal`,
refuting the assertion of the claim that a negative rate produces negative interest
and a total below the principal. -/
theorem negative_rate_counterexample :
    calculateDefaultInterest 1 0 86400000 (-1) =
      .ok ⟨1, 0, 86400000, 1, -1, 0, 1, "360-day year".toList⟩ ∧
    ¬((0 : ℚ) < 0) ∧ ¬((1 : ℚ) < 1) := by
  decide

/-- **C10 (amended).** Neither function validates the interest rate: a result
is non-error exactly when `principal > 0` and `startDate < endDate`, for every
rate (including 0 and negative rates) and every `pow`.  A negative rate makes
the raw (pre-rounding) interest negative whenever at least one full day
elapsed, and the returned interest is ≤ 0 with total ≤ round(principal, 2) —
the rounded fields can equal 0 and the principal for tiny magnitudes. -/
theorem rate_not_validated (pow : ℚ → ℚ → ℚ) (P : ℚ) (s e : ℤ) (r : ℚ) :
    ((∃ res, calculateDefaultInterest P s e r = .ok res) ↔ (0 < P ∧ s < e)) ∧
    ((∃ res, calculateCompoundInterest pow P s e r = .ok res) ↔ (0 < P ∧ s < e)) ∧
    (0 < P → s < e → r < 0 →
      ∃ res, calculateDefaultInterest P s e r = .ok res ∧ res.interest ≤ 0 ∧
        res.total ≤ round2 P ∧
        (1 ≤ res.days → P * (r / 100 / 360) * (res.days : ℚ) < 0)) := by
  refine ⟨?_, ?_, ?_⟩
  · by_cases hP : P ≤ 0
    · rw [calculateDefaultInterest, if_pos hP]
      simp only [reduceCtorEq, exists_false, false_iff, not_and]
      intro h
      exact absurd h (not_lt.mpr hP)
    · by_cases hse : e ≤ s
      · rw [calculateDefaultInterest, if_neg hP, if_pos hse]
        simp only [reduceCtorEq, exists_false, false_iff, not_and]
        intro _ h
        exact absurd h (not_lt.mpr hse)
      · rw [calculateDefaultInterest, if_neg hP, if_neg hse]
        exact iff_of_true ⟨_, rfl⟩ ⟨not_le.mp hP, not_le.mp hse⟩
  · by_cases hP : P ≤ 0
    · rw [calculateCompoundInterest, if_pos hP]
      simp only [reduceCtorEq, exists_false, false_iff, not_and]
      intro h
      exact absurd h (not_lt.mpr hP)
    · by_cases hse : e ≤ s
      · rw [calculateCompoundInterest, if_neg hP, if_pos hse]
        simp only [reduceCtorEq, exists_false, false_iff, not_and]
        intro _ h
        exact absurd h (not_lt.mpr hse)
      · rw [calculateCompoundInterest, if_neg hP, if_neg hse]
        exact iff_of_true ⟨_, rfl⟩ ⟨not_le.mp hP, not_le.mp hse⟩
  · intro hP hse hr
    have hdays : (0 : ℤ) ≤ Int.fdiv (e - s) msPerDay := by
      rw [Int.fdiv_eq_ediv _ (by norm_num [msPerDay])]
      exact Int.ediv_nonneg (by omega) (by norm_num [msPerDay])
    have hrneg : r / 100 / 360 < 0 := by
      have h1 : r / 100 < 0 := div_neg_of_neg_of_pos hr (by norm_num)
      exact div_neg_of_neg_of_pos h1 (by norm_num)
    have hraw : P * (r / 100 / 360) * ((Int.fdiv (e - s) msPerDay : ℤ) : ℚ) ≤ 0 :=
      mul_nonpos_of_nonpos_of_nonneg
        (le_of_lt (mul_neg_of_pos_of_neg hP hrneg)) (by exact_mod_cast hdays)
    refine ⟨_, by rw [calculateDefaultInterest, if_neg (not_le.mpr hP),
      if_neg (not_le.mpr hse)], ?_, ?_, ?_⟩
    · calc round2 (P * (r / 100 / 360) * ((Int.fdiv (e - s) msPerDay : ℤ) : ℚ))
          ≤ round2 0 := round2_mono hraw
        _ = 0 := round2_zero
    · have hint : round2 (P * (r / 100 / 360) * ((Int.fdiv (e - s) msPerDay : ℤ) : ℚ)) ≤ 0 := by
        calc round2 (P * (r / 100 / 360) * ((Int.fdiv (e - s) msPerDay : ℤ) : ℚ))
            ≤ round2 0 := round2_mono hraw
          _ = 0 := round2_zero
      exact round2_mono (by linarith)
    · intro hd
      have hd' : (1 : ℚ) ≤ ((Int.fdiv (e - s) msPerDay : ℤ) : ℚ) := by exact_mod_cast hd
      exact mul_neg_of_neg_of_pos (mul_neg_of_pos_of_neg hP hrneg) (by linarith)

-- Witness for C10 (amended), extracting the negative-rate conclusion at
-- principal 1, one day, rate -1.
theorem rate_not_validated_witness :
    ∃ res, calculateDefaultInterest 1 0 86400000 (-1) = .ok res ∧
      res.interest ≤ 0 ∧ res.total ≤ round2 1 ∧
      (1 ≤ res.days → (1 : ℚ) * ((-1 : ℚ) / 100 / 360) * (res.days : ℚ) < 0) :=
  (rate_not_validated (fun a _ => a) 1 0 86400000 (-1)).2.2
    (by norm_num) (by norm_num) (by norm_num)

/-- The JavaScript whitespace class (`\s` in regexes, `String.prototype.trim`,
and the leading-whitespace skip of `parseFloat`): tab, LF, VT, FF, CR, space,
NBSP, Ogham space, the U+2000–U+200A range, LS, PS, NNBSP, MMSP, ideographic
space and BOM. -/
def jsSpace (c : Char) : Bool :=
  let n := c.toNat
  n = 9 || n = 10 || n = 11 || n = 12 || n = 13 || n = 32 || n = 0xA0 ||
  n = 0x1680 || (0x2000 ≤ n && n ≤ 0x200A) || n = 0x2028 || n = 0x2029 ||
  n = 0x202F || n = 0x205F || n = 0x3000 || n = 0xFEFF

/-- `pat` begins the string `s` (case-sensitive). -/
def startsWith : Str → Str → Bool
  | [], _ => true
  | _ :: _, [] => false
  | p :: ps, c :: cs => p == c && startsWith ps cs

/-- A JavaScript value as far as `parseSwissNumber` distinguishes them: a
string, a finite number, `NaN`, a signed infinity, or anything else (which the
function passes through untouched). -/
inductive JSVal where
  | str (s : Str)
  | num (q : ℚ)
  | nan
  | inf (neg : Bool)
  | other
deriving DecidableEq

/-- Accumulate a decimal digit string into a natural number. -/
def digitsToNat : Str → ℕ → ℕ
  | [], acc => acc
  | c :: cs, acc => digitsToNat cs (acc * 10 + (c.toNat - 48))

/-- `10 ^ e` for an integer exponent. -/
def pow10 (e : ℤ) : ℚ :=
  if 0 ≤ e then (10 : ℚ) ^ e.toNat else 1 / (10 : ℚ) ^ (-e).toNat

/-- ECMA-262 `parseFloat`: skip leading whitespace, read an optional sign, then
the longest prefix that is `Infinity` or a decimal literal
(`digits [. digits] [e|E [sign] digits]`, with at least one digit in the
mantissa and the exponent part only counted when it has digits); `NaN` when no
such prefix exists. -/
def jsParseFloat (s : Str) : JSVal :=
  let s1 := s.dropWhile jsSpace
  let signAndRest : Bool × Str :=
    match s1 with
    | '-' :: t => (true, t)
    | '+' :: t => (false, t)
    | t => (false, t)
  let neg := signAndRest.1
  let s2 := signAndRest.2
  if startsWith "Infinity".toList s2 then .inf neg
  else
    let intPart := s2.takeWhile Char.isDigit
    let r1 := s2.drop intPart.length
    let fracAndRest : Str × Str :=
      match r1 with
      | '.' :: t => (t.takeWhile Char.isDigit, t.dropWhile Char.isDigit)
      | t => ([], t)
    let fracPart := fracAndRest.1
    let r2 := fracAndRest.2
    if intPart = [] ∧ fracPart = [] then .nan
    else
      let mant : ℚ :=
        (digitsToNat intPart 0 : ℚ) +
          (digitsToNat fracPart 0 : ℚ) / (10 : ℚ) ^ fracPart.length
      let expVal : ℤ :=
        match r2 with
        | e :: t =>
          if e = 'e' ∨ e = 'E' then
            let esignAndRest : ℤ × Str :=
              match t with
              | '-' :: u => (-1, u)
              | '+' :: u => (1, u)
              | u => (1, u)
            let eds := esignAndRest.2.takeWhile Char.isDigit
            if eds = [] then 0 else esignAndRest.1 * (digitsToNat eds 0 : ℤ)
          else 0
        | [] => 0
      .num ((if neg then -1 else 1) * mant * pow10 expVal)

/-- The separator character class of `parseSwissNumber`
(calculations.js line 113): ASCII apostrophe, right/left single quotation
marks, modifier-letter apostrophe, and whitespace. -/
def isSwissSep (c : Char) : Bool :=
  c == aposChar || c == Char.ofNat 0x2019 || c == Char.ofNat 0x2018 ||
  c == Char.ofNat 0x02BC || jsSpace c

/-- `.replace(',', '.')` with a string pattern replaces only the first
occurrence. -/
def replaceFirstComma : Str → Str
  | [] => []
  | c :: cs => if c = ',' then '.' :: cs else c :: replaceFirstComma cs

/-- `parseSwissNumber(str)` (calculations.js lines 109-114): non-strings are
returned unchanged; strings are stripped of separator characters, the first
comma is turned into a dot, and the result is fed to `parseFloat`. -/
def parseSwissNumber (v : JSVal) : JSVal :=
  match v with
  | .str s => jsParseFloat (replaceFirstComma (s.filter (fun c => !(isSwissSep c))))
  | v => v

unseal Rat.add Rat.mul Rat.inv Rat.sub in
/-- **C5.** `parseSwissNumber` returns every non-string input unchanged; for
every string input it removes the apostrophe-like thousands separators and
whitespace, converts the (first) comma decimal separator to a dot and parses
the remainder with `parseFloat`, so that the string 10 000.50 with an apostrophe
separator parses to `10000.5` and 1 234,56 likewise parses to `1234.56`; for malformed input such as `"abc"` it
returns the `NaN` sentinel rather than throwing. -/
theorem parseSwissNumber_spec :
    (∀ q : ℚ, parseSwissNumber (.num q) = .num q) ∧
    parseSwissNumber .nan = .nan ∧
    (∀ b, parseSwissNumber (.inf b) = .inf b) ∧
    parseSwissNumber .other = .other ∧
    (∀ s : Str, parseSwissNumber (.str s) =
      jsParseFloat (replaceFirstComma (s.filter (fun c => !(isSwissSep c))))) ∧
    parseSwissNumber (.str ("10".toList ++ aposChar :: "000.50".toList)) =
      .num (20001/2) ∧
    parseSwissNumber (.str ("1".toList ++ aposChar :: "234,56".toList)) =
      .num (30864/25) ∧
    parseSwissNumber (.str "abc".toList) = .nan := by
  exact ⟨fun q => rfl, rfl, fun b => rfl, rfl, fun s => rfl, by decide, by decide,
    by decide⟩

/-- Case-insensitive analogue of `startsWith`, for the `/i` regex flag. -/
def startsWithCI : Str → Str → Bool
  | [], _ => true
  | _ :: _, [] => false
  | p :: ps, c :: cs => (p.toLower == c.toLower) && startsWithCI ps cs

/-- Index of the earliest case-insensitive occurrence of `pat`. -/
def findFromCI (pat : Str) : Str → Option ℕ
  | [] => if startsWithCI pat [] then some 0 else none
  | c :: cs =>
    if startsWithCI pat (c :: cs) then some 0 else (findFromCI pat cs).map (· + 1)

/-- Index of the last case-insensitive occurrence of `pat` (the greedy
`[\s\S]*` of the body regex selects the last closing tag). -/
def rfindFromCI (pat : Str) : Str → Option ℕ
  | [] => none
  | c :: cs =>
    match rfindFromCI pat cs with
    | some i => some (i + 1)
    | none => if startsWithCI pat (c :: cs) then some 0 else none

/-- Case-insensitive substring test. -/
def containsCI (pat s : Str) : Bool := (findFromCI pat s).isSome

/-- Index of the earliest case-sensitive occurrence of `pat`. -/
def findFromCS (pat : Str) : Str → Option ℕ
  | [] => if startsWith pat [] then some 0 else none
  | c :: cs =>
    if startsWith pat (c :: cs) then some 0 else (findFromCS pat cs).map (· + 1)

/-- Case-sensitive substring test (JavaScript `String.prototype.includes`). -/
def containsCS (pat s : Str) : Bool := (findFromCS pat s).isSome

/-- Number of (possibly overlapping) positions at which `pat` occurs. -/
def countSubstr (pat : Str) : Str → ℕ
  | [] => 0
  | c :: cs => (if startsWith pat (c :: cs) then 1 else 0) + countSubstr pat cs

/-- Split around the first occurrence of `pat`: `some (a, b)` with the original
string equal to `a ++ pat ++ b`. -/
def splitFirst (pat : Str) : Str → Option (Str × Str)
  | [] => none
  | c :: cs =>
    if startsWith pat (c :: cs) then some ([], (c :: cs).drop pat.length)
    else (splitFirst pat cs).map (fun pr => (c :: pr.1, pr.2))

/-- Scan-and-replace: the semantics of `String.prototype.replace` with a `/g`
regex whose matches are never empty.  `m s` returns the length of a match
starting at the head of `s` (if any); matched spans are replaced by `repl`,
scanning resumes after the match, and unmatched characters are copied. -/
def scanRw (m : Str → Option ℕ) (repl : Str) : Str → Str
  | [] => []
  | c :: cs =>
    match m (c :: cs) with
    | some (k+1) => repl ++ scanRw m repl (cs.drop k)
    | _ => c :: scanRw m repl cs
termination_by s => s.length
decreasing_by
  all_goals simp only [List.length_drop, List.length_cons]
  all_goals omega

/-- The semantics of `String.prototype.match` with a `/g` regex: the list of
(whole-match) spans, scanning left to right and resuming after each match. -/
def scanMatches (m : Str → Option ℕ) : Str → List Str
  | [] => []
  | c :: cs =>
    match m (c :: cs) with
    | some (k+1) => (c :: cs).take (k+1) :: scanMatches m (cs.drop k)
    | _ => scanMatches m cs
termination_by s => s.length
decreasing_by
  all_goals simp only [List.length_drop, List.length_cons]
  all_goals omega

/-- Match `<TAG[^>]*>` (case-insensitive) at the head of `s`, returning the
match length.  Mirrors the opening-tag part of the template regexes; note that
`[^>]*` also accepts further name characters, exactly as the regex does. -/
def tagOpenLenCI (tag : Str) (s : Str) : Option ℕ :=
  if startsWithCI ('<' :: tag) s then
    let rest := s.drop (tag.length + 1)
    let mid := rest.takeWhile (· != '>')
    match rest.drop mid.length with
    | '>' :: _ => some (tag.length + 1 + mid.length + 1)
    | _ => none
  else none

/-- Match `/<style[^>]*>[\s\S]*?<\/style>/i` at the head of `s`. -/
def styleBlockM (s : Str) : Option ℕ :=
  match tagOpenLenCI "style".toList s with
  | some n =>
    match findFromCI "</style>".toList (s.drop n) with
    | some i => some (n + i + 8)
    | none => none
  | none => none

/-- Match `/<\/?style[^>]*>/i` at the head of `s`. -/
def styleTagM (s : Str) : Option ℕ :=
  match s with
  | '<' :: rest =>
    let sr : ℕ × Str :=
      match rest with
      | '/' :: r => (1, r)
      | r => (0, r)
    if startsWithCI "style".toList sr.2 then
      let r2 := sr.2.drop 5
      let mid := r2.takeWhile (· != '>')
      match r2.drop mid.length with
      | '>' :: _ => some (1 + sr.1 + 5 + mid.length + 1)
      | _ => none
    else none
  | _ => none

/-- Match `/<script>[\s\S]*?<\/script>/i` at the head of `s` (the attribute-free
inline-script pattern used both for extraction and for stripping). -/
def scriptPlainM (s : Str) : Option ℕ :=
  if startsWithCI "<script>".toList s then
    match findFromCI "</script>".toList (s.drop 8) with
    | some i => some (8 + i + 9)
    | none => none
  else none

/-- Match `/<\/?script>/i` at the head of `s`. -/
def scriptTagM (s : Str) : Option ℕ :=
  match s with
  | '<' :: rest =>
    let sr : ℕ × Str :=
      match rest with
      | '/' :: r => (1, r)
      | r => (0, r)
    if startsWithCI "script>".toList sr.2 then some (1 + sr.1 + 7) else none
  | _ => none

/-- Positions inside `run` at which `pat` occurs case-insensitively. -/
def ciMatchPositions (pat run : Str) : List ℕ :=
  (List.range (run.length + 1)).filter (fun i => startsWithCI pat (run.drop i))

/-- Match `/<script[^>]*src="[^"]*"[^>]*><\/script>/i` at the head of `s`.
The greedy `[^>]*` is resolved, as a backtracking engine does, by trying the
latest feasible `src="` inside the run of non-`>` characters first. -/
def scriptSrcM (s : Str) : Option ℕ :=
  if startsWithCI "<script".toList s then
    let rest := s.drop 7
    let run := rest.takeWhile (· != '>')
    (ciMatchPositions "src=\"".toList run).reverse.findSome? fun i =>
      let afterSrc := rest.drop (i + 5)
      let q := afterSrc.takeWhile (· != '"')
      match afterSrc.drop q.length with
      | '"' :: r2 =>
        let mid2 := r2.takeWhile (· != '>')
        match r2.drop mid2.length with
        | '>' :: r3 =>
          if startsWithCI "</script>".toList r3 then
            some (7 + i + 5 + q.length + 1 + mid2.length + 1 + 9)
          else none
        | _ => none
      | _ => none
  else none

/-- Match `/<link[^>]*href="[^"]*NEEDLE[^"]*"[^>]*>/i` at the head of `s`. -/
def linkHrefM (needle : Str) (s : Str) : Option ℕ :=
  if startsWithCI "<link".toList s then
    let rest := s.drop 5
    let run := rest.takeWhile (· != '>')
    (ciMatchPositions "href=\"".toList run).reverse.findSome? fun i =>
      let afterH := rest.drop (i + 6)
      let v := afterH.takeWhile (· != '"')
      match afterH.drop v.length with
      | '"' :: r2 =>
        if containsCI needle v then
          let mid2 := r2.takeWhile (· != '>')
          match r2.drop mid2.length with
          | '>' :: _ => some (5 + i + 6 + v.length + 1 + mid2.length + 1)
          | _ => none
        else none
      | _ => none
  else none

/-- Match `/<link[^>]*rel="preconnect"[^>]*>/i` at the head of `s`. -/
def preconnectM (s : Str) : Option ℕ :=
  if startsWithCI "<link".toList s then
    let rest := s.drop 5
    let run := rest.takeWhile (· != '>')
    match rest.drop run.length with
    | '>' :: _ =>
      if containsCI "rel=\"preconnect\"".toList run then some (5 + run.length + 1)
      else none
    | _ => none
  else none

/-- Literal opening of the language-switcher block. -/
def lsOpenStr : Str := "<div class=\"language-switcher\">".toList

/-- Lazy search for `</div>\s*</div>` (the tail of the language-switcher
regex), returning the length consumed from the current position through the
second `</div>`. -/
def lsCloseLen : Str → Option ℕ
  | [] => none
  | c :: cs =>
    if startsWithCI "</div>".toList (c :: cs) then
      let r2 := (c :: cs).drop 6
      let ws := r2.takeWhile jsSpace
      if startsWithCI "</div>".toList (r2.drop ws.length) then
        some (6 + ws.length + 6)
      else (lsCloseLen cs).map (· + 1)
    else (lsCloseLen cs).map (· + 1)

/-- Match `/<div class="language-switcher">[\s\S]*?<\/div>\s*<\/div>/i` at the
head of `s`. -/
def langSwitcherM (s : Str) : Option ℕ :=
  if startsWithCI lsOpenStr s then
    (lsCloseLen (s.drop lsOpenStr.length)).map (fun n => lsOpenStr.length + n)
  else none

/-- Literal opening of the tool-navigation block. -/
def navOpenStr : Str := "<nav class=\"tool-nav\">".toList

/-- Match `/<nav class="tool-nav">[\s\S]*?<\/nav>/i` at the head of `s`. -/
def navM (s : Str) : Option ℕ :=
  if startsWithCI navOpenStr s then
    match findFromCI "</nav>".toList (s.drop navOpenStr.length) with
    | some i => some (navOpenStr.length + i + 6)
    | none => none
  else none

/-- Literal-string matcher (for the case-sensitive literal `/g` replaces). -/
def litM (pat : Str) (s : Str) : Option ℕ :=
  if startsWith pat s then some pat.length else none

/-- Earliest position (and match length) at which matcher `m` fires. -/
def findFirstMatch (m : Str → Option ℕ) : Str → Option (ℕ × ℕ)
  | [] =>
    match m [] with
    | some k => some (0, k)
    | none => none
  | c :: cs =>
    match m (c :: cs) with
    | some k => some (0, k)
    | none => (findFirstMatch m cs).map (fun p => (p.1 + 1, p.2))

/-- The capture of `/<body[^>]*>([\s\S]*)<\/body>/i`: content from the first
`<body...>` opening tag to the last `</body>` (greedy), or `none` when the
pattern does not match. -/
def bodyContentOf (t : Str) : Option Str :=
  match findFirstMatch (tagOpenLenCI "body".toList) t with
  | some (i, n) =>
    let rest := t.drop (i + n)
    match rfindFromCI "</body>".toList rest with
    | some j => some (rest.take j)
    | none => none
  | none => none

/-- One-character string holding the ASCII apostrophe (the JavaScript source
escapes with a backslash inside single-quoted literals). -/
def apoStr : Str := [aposChar]

/-- The two supported languages of `const LANGUAGES`. -/
inductive Lang where
  | de
  | fr
deriving DecidableEq

/-- The language code string interpolated into filenames and markup. -/
def langCode : Lang → Str
  | .de => "de".toList
  | .fr => "fr".toList

/-- A tool configuration (entries of `TOOLS`, build-all-offline.js
lines 16-31). -/
structure Tool where
  id : Str
  name : Lang → Str
  htmlFile : Lang → Str
  scripts : List Str
  title : Lang → Str

/-- First `TOOLS` entry. -/
def verzugszinsrechnerTool : Tool where
  id := "verzugszinsrechner".toList
  name := fun l =>
    match l with
    | .de => "Verzugszinsrechner".toList
    | .fr => "Calculateur d".toList ++ apoStr ++ "intérêts moratoires".toList
  htmlFile := fun l =>
    match l with
    | .de => "de/index.html".toList
    | .fr => "fr/index.html".toList
  scripts := ["scripts/utils.js".toList, "scripts/calculations.js".toList,
              "scripts/app.js".toList, "scripts/pdf-export.js".toList]
  title := fun l =>
    match l with
    | .de => "Schweizer Verzugszinsrechner (Offline-Version)".toList
    | .fr => "Calculateur d".toList ++ apoStr ++
             "intérêts moratoires suisse (Version hors ligne)".toList

/-- Second `TOOLS` entry. -/
def mahnrechnerTool : Tool where
  id := "mahnrechner".toList
  name := fun l =>
    match l with
    | .de => "Mahnrechner".toList
    | .fr => "Calculateur de rappel".toList
  htmlFile := fun l =>
    match l with
    | .de => "de/mahnrechner.html".toList
    | .fr => "fr/mahnrechner.html".toList
  scripts := ["scripts/utils.js".toList, "scripts/calculations.js".toList,
              "scripts/pdf-export.js".toList]
  title := fun l =>
    match l with
    | .de => "Schweizer Mahnrechner (Offline-Version)".toList
    | .fr => "Calculateur de rappel suisse (Version hors ligne)".toList

/-- `const TOOLS = [...]`. -/
def TOOLS : List Tool := [verzugszinsrechnerTool, mahnrechnerTool]

/-- `const LANGUAGES`: the two language codes in order. -/
def LANGUAGES : List Lang := [.de, .fr]

/-- The filesystem as the build script sees it: files under the project
directory (read by `readFile`) and files next to the build script (read by
`readBundleFile` / `getFontBase64`), keyed by relative path.  `none` means the
file does not exist. -/
structure FS where
  projectFile : Str → Option Str
  bundleFile : Str → Option Str

/-- `readFile(relativePath)` (lines 44-51): missing files log a warning and
yield the empty string. -/
def readFile (fs : FS) (p : Str) : Str := (fs.projectFile p).getD []

/-- `readBundleFile(filename)` (lines 53-60): missing files yield the empty
string. -/
def readBundleFile (fs : FS) (p : Str) : Str := (fs.bundleFile p).getD []

/-- `getFontBase64(fontFile)` (lines 35-42): `none` when the file is missing,
otherwise the base64 rendering of the file bytes (the `FS` map stores that
base64 text directly, a faithful image since base64 is a deterministic
injective encoding of the bytes). -/
def getFontBase64 (fs : FS) (p : Str) : Option Str := fs.bundleFile p

/-- One `@font-face` block of `generateFontCSS` (lines 66-81), byte for byte;
`weight` is `400` or `700` and `b64` the interpolated base64 payload. -/
def fontFaceBlock (weight : Str) (b64 : Str) : Str :=
  "\n        @font-face \x7b\n            font-family: ".toList ++ apoStr ++
  "Economica".toList ++ apoStr ++
  ";\n            font-style: normal;\n            font-weight: ".toList ++
  weight ++
  ";\n            font-display: swap;\n            src: url(".toList ++ apoStr ++
  "data:font/truetype;base64,".toList ++ b64 ++ apoStr ++ ") format(".toList ++
  apoStr ++ "truetype".toList ++ apoStr ++ ");\n        \x7d".toList

/-- `generateFontCSS()` (lines 62-82): falls back to a placeholder comment when
either font file is missing or empty (both are falsy in JavaScript). -/
def generateFontCSS (fs : FS) : Str :=
  match getFontBase64 fs "economica-regular.ttf".toList,
        getFontBase64 fs "economica-bold.ttf".toList with
  | some (r@(_ :: _)), some (b@(_ :: _)) =>
    fontFaceBlock "400".toList r ++ fontFaceBlock "700".toList b ++ "\n    ".toList
  | _, _ => "/* Fonts not available */".toList

/-- `generateFontAwesomeCSS()` (lines 84-111), byte for byte. -/
def fontAwesomeCSS : Str :=
  ("\n        .fa, .fas, .fab \x7b display: inline-block; font-style: normal; \x7d" ++
   "\n        .fa-moon::before \x7b content: \"\\1F319\"; \x7d" ++
   "\n        .fa-sun::before \x7b content: \"\\2600\\FE0F\"; \x7d" ++
   "\n        .fa-calculator::before \x7b content: \"\\1F9EE\"; \x7d" ++
   "\n        .fa-percent::before \x7b content: \"%\"; \x7d" ++
   "\n        .fa-exclamation-triangle::before \x7b content: \"\\26A0\\FE0F\"; \x7d" ++
   "\n        .fa-file-pdf::before \x7b content: \"\\1F4C4\"; \x7d" ++
   "\n        .fa-external-link-alt::before \x7b content: \"\\2197\"; font-size: 0.8em; \x7d" ++
   "\n        .fa-check::before \x7b content: \"\\2713\"; \x7d" ++
   "\n        .fa-times::before \x7b content: \"\\2715\"; \x7d" ++
   "\n        .fa-info-circle::before \x7b content: \"\\2139\\FE0F\"; \x7d" ++
   "\n        .fa-calendar-day::before \x7b content: \"\\1F4C5\"; \x7d" ++
   "\n        .fa-money-bill::before \x7b content: \"\\1F4B5\"; \x7d" ++
   "\n        .fa-coins::before \x7b content: \"\\1FA99\"; \x7d" ++
   "\n        .fa-envelope::before \x7b content: \"\\2709\"; \x7d" ++
   "\n        .fa-bell::before \x7b content: \"\\1F514\"; \x7d" ++
   "\n        .fa-clock::before \x7b content: \"\\23F0\"; \x7d" ++
   "\n        .fa-chevron-right::before \x7b content: \"\\203A\"; \x7d" ++
   "\n        .fa-plus::before \x7b content: \"+\"; \x7d" ++
   "\n        .fa-minus::before \x7b content: \"-\"; \x7d" ++
   "\n        .fa-trash::before \x7b content: \"\\1F5D1\"; \x7d" ++
   "\n        .fa-edit::before \x7b content: \"\\270F\"; \x7d" ++
   "\n        .fa-download::before \x7b content: \"\\2B07\"; \x7d" ++
   "\n        .fa-print::before \x7b content: \"\\1F5A8\"; \x7d" ++
   "\n    ").toList

/-- `BANNER_TEXT` entries (lines 113-116). -/
structure BannerText where
  title : Str
  subtitle : Str
  date : Str

/-- `BANNER_TEXT` (lines 113-116). -/
def bannerTextOf : Lang → BannerText
  | .de => ⟨"Offline-Version".toList,
            "Keine Internetverbindung erforderlich".toList, "Stand".toList⟩
  | .fr => ⟨"Version hors ligne".toList,
            "Aucune connexion Internet requise".toList, "État".toList⟩

/-- `String.prototype.trim` over the JavaScript whitespace class. -/
def jsTrim (s : Str) : Str := ((s.dropWhile jsSpace).reverse.dropWhile jsSpace).reverse

/-- The inline-style extraction loop (lines 140-148): every
`<style...>...</style>` match, tags stripped, joined with newlines. -/
def extractInlineStyles (tpl : Str) : Str :=
  ((scanMatches styleBlockM tpl).map
    (fun m => scanRw styleTagM [] m ++ "\n".toList)).flatten

/-- The inline-script extraction loop body (lines 170-180): strip the tags,
keep the content only when its trim is non-empty and it does not contain the
JSON-LD marker `@context`, and append a newline. -/
def inlineScriptsConcat : List Str → Str
  | [] => []
  | m :: ms =>
    let content := scanRw scriptTagM [] m
    (if !(jsTrim content).isEmpty && !containsCS "@context".toList content then
      content ++ "\n".toList
    else []) ++ inlineScriptsConcat ms

/-- The extracted inline scripts of a template (lines 170-180). -/
def extractInlineScripts (tpl : Str) : Str :=
  inlineScriptsConcat (scanMatches scriptPlainM tpl)

/-- Literal `href="../de/`. -/
def hrefDeLit : Str := "href=\"../de/".toList

/-- Literal `href="../fr/`. -/
def hrefFrLit : Str := "href=\"../fr/".toList

/-- Literal `href="#`. -/
def hrefHashLit : Str := "href=\"#".toList

/-- Literal `src="../favicon.svg"`. -/
def faviconLit : Str := "src=\"../favicon.svg\"".toList

/-- The inline data-URI favicon replacement (line 224), byte for byte. -/
def faviconRepl : Str :=
  "src=\"data:image/svg+xml,%3Csvg xmlns=".toList ++ apoStr ++
  "http://www.w3.org/2000/svg".toList ++ apoStr ++ " viewBox=".toList ++ apoStr ++
  "0 0 100 100".toList ++ apoStr ++ "%3E%3Ctext y=".toList ++ apoStr ++ ".9em".toList ++
  apoStr ++ " font-size=".toList ++ apoStr ++ "90".toList ++ apoStr ++
  "%3E%25%3C/text%3E%3C/svg%3E\"".toList

/-- The body rewriting chain (lines 209-224), one `scanRw` per `replace`, in
source order. -/
def rewriteBody (b : Str) : Str :=
  let b1 := scanRw scriptSrcM [] b
  let b2 := scanRw scriptPlainM [] b1
  let b3 := scanRw (linkHrefM "fonts".toList) [] b2
  let b4 := scanRw (linkHrefM "flatpickr".toList) [] b3
  let b5 := scanRw (linkHrefM "font-awesome".toList) [] b4
  let b6 := scanRw preconnectM [] b5
  let b7 := scanRw langSwitcherM "</div>".toList b6
  let b8 := scanRw navM [] b7
  let b9 := scanRw (litM hrefDeLit) hrefHashLit b8
  let b10 := scanRw (litM hrefFrLit) hrefHashLit b9
  scanRw (litM faviconLit) faviconRepl b10

/-- The part of `bannerHTML` (lines 227-232) before the interpolated date. -/
def bannerPre (lang : Lang) : Str :=
  "\n    <div class=\"offline-banner\">\n        <span>".toList ++
  (bannerTextOf lang).title ++ " – ".toList ++ (bannerTextOf lang).subtitle ++
  "</span>\n        <span class=\"version\">".toList ++
  (bannerTextOf lang).date ++ ": ".toList

/-- The part of `bannerHTML` after the interpolated date. -/
def bannerSuf : Str := "</span>\n    </div>\n".toList

/-- `bannerHTML` (lines 227-232). -/
def bannerHTML (lang : Lang) (dateStr : Str) : Str :=
  bannerPre lang ++ dateStr ++ bannerSuf

/-- Literal `<div class="container">`. -/
def containerLit : Str := "<div class=\"container\">".toList

/-- Banner injection (lines 233-237): after the first container div when one
exists, otherwise prepended. -/
def insertBanner (body banner : Str) : Str :=
  match splitFirst containerLit body with
  | some pr => pr.1 ++ containerLit ++ banner ++ pr.2
  | none => banner ++ body

/-- The fixed `combinedCSS` tail (lines 156-168), byte for byte. -/
def offlineBannerCSS : Str :=
  ("\n        .offline-banner \x7b" ++
   "\n            background: linear-gradient(135deg, #2d5a3d 0%, #4a7c59 100%);" ++
   "\n            color: white;" ++
   "\n            padding: 10px 20px;" ++
   "\n            font-size: 0.9rem;" ++
   "\n            display: flex;" ++
   "\n            justify-content: space-between;" ++
   "\n            align-items: center;" ++
   "\n            margin-bottom: 1rem;" ++
   "\n            border-radius: 8px;" ++
   "\n        \x7d" ++
   "\n        .offline-banner .version \x7b opacity: 0.8; font-size: 0.8rem; \x7d" ++
   "\n    ").toList

/-- `combinedCSS` (lines 150-168). -/
def bundleCombinedCSS (fs : FS) (tool : Tool) (lang : Lang) : Str :=
  "\n        ".toList ++ generateFontCSS fs ++
  "\n        ".toList ++ fontAwesomeCSS ++
  "\n        ".toList ++ readBundleFile fs "flatpickr.min.css".toList ++
  "\n        ".toList ++ readFile fs "css/styles.css".toList ++
  "\n        ".toList ++ extractInlineStyles (readFile fs (tool.htmlFile lang)) ++
  offlineBannerCSS

/-- `scriptsJS` (lines 132-135): the application scripts of the tool read in
declared order, each followed by a newline. -/
def appScriptsJS (fs : FS) (tool : Tool) : Str :=
  (tool.scripts.map (fun p => readFile fs p ++ "\n".toList)).flatten

/-- `combinedJS` (lines 182-187): the vendored PDF library, the vendored
date-picker script, the application scripts and the extracted inline scripts,
in this order, with the separators of the template literal. -/
def bundleCombinedJS (fs : FS) (tool : Tool) (lang : Lang) : Str :=
  "\n        ".toList ++ readBundleFile fs "jspdf.min.js".toList ++
  "\n        ".toList ++ readBundleFile fs "flatpickr.min.js".toList ++
  "\n        ".toList ++ appScriptsJS fs tool ++
  "\n        ".toList ++ extractInlineScripts (readFile fs (tool.htmlFile lang)) ++
  "\n    ".toList

/-- The document head built at lines 192-203. -/
def docHead (tool : Tool) (lang : Lang) (combinedCSS : Str) : Str :=
  "<!DOCTYPE html>\n<html lang=\"".toList ++ langCode lang ++
  "\">\n<head>\n    <meta charset=\"UTF-8\">\n    <meta name=\"viewport\" content=\"width=device-width, initial-scale=1.0\">\n    <title>".toList ++
  tool.title lang ++ "</title>\n    <style>\n".toList ++ combinedCSS ++
  "\n    </style>\n</head>\n<body>\n".toList

/-- Lines 205-240: the rewritten body with the banner injected, or nothing
when the body regex does not match. -/
def bundleBodyPart (fs : FS) (tool : Tool) (lang : Lang) (dateStr : Str) : Str :=
  match bodyContentOf (readFile fs (tool.htmlFile lang)) with
  | some content => insertBanner (rewriteBody content) (bannerHTML lang dateStr)
  | none => []

/-- Everything of the output document before the combined script block. -/
def bundleDocFront (fs : FS) (tool : Tool) (lang : Lang) (dateStr : Str) : Str :=
  docHead tool lang (bundleCombinedCSS fs tool lang) ++
  bundleBodyPart fs tool lang dateStr

/-- Literal `\n    <script>\n` opening the combined script block (line 243). -/
def scriptTailOpen : Str := "\n    <script>\n".toList

/-- Literal closing of the document (lines 245-247). -/
def scriptTailClose : Str := "\n    </script>\n</body>\n</html>".toList

/-- `buildOfflineHTML(tool, lang)` (lines 118-250).  `dateStr` is the
`new Date().toLocaleDateString(...)` value of line 190, the only
non-filesystem input.  Returns `none` (JavaScript `null`) when the HTML
template is missing or empty. -/
def buildOfflineHTML (fs : FS) (tool : Tool) (lang : Lang) (dateStr : Str) :
    Option Str :=
  if readFile fs (tool.htmlFile lang) = [] then none
  else
    some (bundleDocFront fs tool lang dateStr ++ scriptTailOpen ++
      bundleCombinedJS fs tool lang ++ scriptTailClose)

/-- The ambient state of one `buildAll` run: the filesystem, the outcome and
reported size of the external `zip` invocation per archive name, and the
locale-formatted current date per language. -/
structure BuildEnv where
  fs : FS
  zipOk : Str → Bool
  zipSize : Str → ℕ
  dateStr : Lang → Str

/-- One element of the `results` array of `buildAll` (lines 280-293): tool id,
language, success flag, and the archive size recorded on success. -/
structure Outcome where
  tool : Str
  lang : Lang
  success : Bool
  zipSize : Option ℕ

/-- `` `${tool.id}-offline-${lang}.zip` `` (line 274). -/
def zipName (tool : Tool) (lang : Lang) : Str :=
  tool.id ++ "-offline-".toList ++ langCode lang ++ ".zip".toList

/-- One iteration of the nested loops of `buildAll` (lines 272-295): bundler
failure records a failure and continues; otherwise the document is written and
zipped, and the outcome records zip success with the archive size, or
failure. -/
def buildPair (env : BuildEnv) (tool : Tool) (lang : Lang) : Outcome :=
  match buildOfflineHTML env.fs tool lang (env.dateStr lang) with
  | none => ⟨tool.id, lang, false, none⟩
  | some _ =>
    if env.zipOk (zipName tool lang) then
      ⟨tool.id, lang, true, some (env.zipSize (zipName tool lang))⟩
    else ⟨tool.id, lang, false, none⟩

/-- The inner `for (const lang of LANGUAGES)` loop. -/
def buildLangLoop (env : BuildEnv) (tool : Tool) : List Lang → List Outcome
  | [] => []
  | l :: ls => buildPair env tool l :: buildLangLoop env tool ls

/-- The outer `for (const tool of TOOLS)` loop. -/
def buildToolLoop (env : BuildEnv) : List Tool → List Outcome
  | [] => []
  | t :: ts => buildLangLoop env t LANGUAGES ++ buildToolLoop env ts

/-- `buildAll()` (lines 262-305): the per-pair outcome list in iteration
order. -/
def buildAll (env : BuildEnv) : List Outcome := buildToolLoop env TOOLS

/-- `successful.length` of the final summary (lines 299-301). -/
def buildSuccessCount (env : BuildEnv) : ℕ :=
  ((buildAll env).filter (·.success)).length

/-- A prefix test ignores everything at and after a character that does not
occur in the pattern. -/
theorem startsWith_append_cons (pat : Str) (u : Str) (c : Char) (v : Str)
    (hc : c ∉ pat) : startsWith pat (u ++ c :: v) = startsWith pat u := by
  induction pat generalizing u with
  | nil => rfl
  | cons p ps ih =>
    cases u with
    | nil =>
      have hpc : (p == c) = false := by
        simp only [beq_eq_false_iff_ne, ne_eq]
        intro hq
        exact hc (hq ▸ List.mem_cons_self p ps)
      show (p == c && startsWith ps v) = false
      rw [hpc]
      exact Bool.false_and _
    | cons x u9 =>
      show (p == x && startsWith ps (u9 ++ c :: v)) = (p == x && startsWith ps u9)
      rw [ih u9 (fun hmem => hc (List.mem_cons_of_mem p hmem))]

/-- Substring counting splits across a boundary character that does not occur
in the pattern (no occurrence can straddle such a boundary). -/
theorem countSubstr_append_cons (pat : Str) (u : Str) (c : Char) (v : Str)
    (hc : c ∉ pat) :
    countSubstr pat (u ++ c :: v) = countSubstr pat u + countSubstr pat (c :: v) := by
  induction u with
  | nil => exact (Nat.zero_add _).symm
  | cons x u9 ih =>
    show (if startsWith pat ((x :: u9) ++ c :: v) = true then 1 else 0) +
        countSubstr pat (u9 ++ c :: v) =
      ((if startsWith pat (x :: u9) = true then 1 else 0) + countSubstr pat u9) +
        countSubstr pat (c :: v)
    rw [startsWith_append_cons pat (x :: u9) c v hc, ih]
    omega

/-- Splitting a `P ++ nl A ++ nl B ++ nl C` document shape for a pattern not
containing the newline. -/
theorem countSubstr_doc_split (pat P A B C : Str) (hc : ('\n' : Char) ∉ pat) :
    countSubstr pat (P ++ '\n' :: (A ++ '\n' :: (B ++ '\n' :: C))) =
      countSubstr pat P + countSubstr pat ('\n' :: A) +
      countSubstr pat ('\n' :: B) + countSubstr pat ('\n' :: C) := by
  rw [countSubstr_append_cons pat P '\n' (A ++ '\n' :: (B ++ '\n' :: C)) hc]
  rw [show ('\n' :: (A ++ '\n' :: (B ++ '\n' :: C)) : Str) =
    ('\n' :: A) ++ '\n' :: (B ++ '\n' :: C) from rfl]
  rw [countSubstr_append_cons pat ('\n' :: A) '\n' (B ++ '\n' :: C) hc]
  rw [show ('\n' :: (B ++ '\n' :: C) : Str) = ('\n' :: B) ++ '\n' :: C from rfl]
  rw [countSubstr_append_cons pat ('\n' :: B) '\n' C hc]
  omega

/-- The inline-script loop is the concatenation of the kept (tag-stripped,
non-blank, `@context`-free) script contents, each followed by a newline. -/
theorem inlineScriptsConcat_eq (ms : List Str) :
    inlineScriptsConcat ms =
      (((ms.map (fun m => scanRw scriptTagM [] m)).filter
        (fun c => !(jsTrim c).isEmpty && !containsCS "@context".toList c)).map
        (fun c => c ++ "\n".toList)).flatten := by
  induction ms with
  | nil => rfl
  | cons m ms ih =>
    simp only [inlineScriptsConcat, List.map_cons, List.filter_cons]
    by_cases hkeep : (!(jsTrim (scanRw scriptTagM [] m)).isEmpty &&
        !containsCS "@context".toList (scanRw scriptTagM [] m)) = true
    · rw [if_pos hkeep, if_pos hkeep, List.map_cons, List.flatten_cons, ih,
        List.append_assoc]
    · rw [if_neg hkeep, if_neg hkeep, ih, List.nil_append]

/-- A successful prefix test decomposes the string. -/
theorem startsWith_take_drop (pat s : Str) (h : startsWith pat s = true) :
    s = pat ++ s.drop pat.length := by
  induction pat generalizing s with
  | nil => simp
  | cons p ps ih =>
    cases s with
    | nil => simp [startsWith] at h
    | cons c cs =>
      simp only [startsWith, Bool.and_eq_true, beq_iff_eq] at h
      obtain ⟨rfl, h2⟩ := h
      simpa using ih cs h2

/-- `splitFirst` splits the string around the pattern. -/
theorem splitFirst_eq (pat s a b : Str) (h : splitFirst pat s = some (a, b)) :
    s = a ++ pat ++ b := by
  induction s generalizing a b with
  | nil => simp [splitFirst] at h
  | cons c cs ih =>
    by_cases hs : startsWith pat (c :: cs) = true
    · rw [splitFirst, if_pos hs] at h
      obtain ⟨ha, hb⟩ : [] = a ∧ (c :: cs).drop pat.length = b := by
        simpa using h
      rw [← ha, ← hb]
      simpa using startsWith_take_drop pat (c :: cs) hs
    · rw [splitFirst, if_neg hs] at h
      cases hsp : splitFirst pat cs with
      | none => rw [hsp] at h; simp at h
      | some pr =>
        rw [hsp] at h
        obtain ⟨ha, hb⟩ : c :: pr.1 = a ∧ pr.2 = b := by simpa using h
        have hrec := ih pr.1 pr.2 (by rw [hsp])
        rw [← ha, ← hb]
        simp [hrec]

/-- Filtered lengths agree along a pointwise relation between two lists. -/
theorem length_filter_congr {α β : Type} (p : α → Bool) (q : β → Bool) :
    ∀ (l1 : List α) (l2 : List β), List.Forall₂ (fun a b => p a = q b) l1 l2 →
      (l1.filter p).length = (l2.filter q).length := by
  intro l1 l2 h
  induction h with
  | nil => rfl
  | cons hab hrest ih =>
    simp only [List.filter_cons]
    rw [hab]
    cases hq : q _ with
    | true => simp [ih]
    | false => simp [ih]

/-- The per-pair outcome: success exactly when the bundler produced a document
and the zip step succeeded, and the outcome labels the pair. -/
theorem buildPair_spec (env : BuildEnv) (t : Tool) (l : Lang) :
    (buildPair env t l).success =
      ((buildOfflineHTML env.fs t l (env.dateStr l)).isSome &&
        env.zipOk (zipName t l)) ∧
    (buildPair env t l).tool = t.id ∧ (buildPair env t l).lang = l := by
  cases hb : buildOfflineHTML env.fs t l (env.dateStr l) with
  | none => simp [buildPair, hb]
  | some d =>
    cases hz : env.zipOk (zipName t l) with
    | true => simp [buildPair, hb, hz]
    | false => simp [buildPair, hb, hz]

/-- **C6.** `buildAll` iterates the fixed tool × language cross product in
deterministic order (tools outer, languages inner); the outcome of each pair
records exactly the tool id and language of that pair, and succeeds exactly when
the bundler returned a document and the compression step succeeded for that
pair (so a bundler failure or compression failure for one pair records a
failure for that pair alone and iteration continues), and the reported
success count is exactly the number of pairs whose bundling and compression
both succeeded. -/
theorem buildAll_spec (env : BuildEnv) :
    buildAll env =
      ((TOOLS.map (fun t => LANGUAGES.map (fun l => buildPair env t l))).flatten) ∧
    (∀ t l, (buildPair env t l).success =
      ((buildOfflineHTML env.fs t l (env.dateStr l)).isSome &&
        env.zipOk (zipName t l))) ∧
    (∀ t l, (buildPair env t l).tool = t.id ∧ (buildPair env t l).lang = l) ∧
    buildSuccessCount env =
      (((TOOLS.map (fun t => LANGUAGES.map (fun l => (t, l)))).flatten).filter
        (fun p => (buildOfflineHTML env.fs p.1 p.2 (env.dateStr p.2)).isSome &&
          env.zipOk (zipName p.1 p.2))).length := by
  refine ⟨?_, fun t l => (buildPair_spec env t l).1,
    fun t l => (buildPair_spec env t l).2, ?_⟩
  · simp [buildAll, buildToolLoop, buildLangLoop, TOOLS, LANGUAGES]
  · have hlist : buildAll env =
        [buildPair env verzugszinsrechnerTool .de,
         buildPair env verzugszinsrechnerTool .fr,
         buildPair env mahnrechnerTool .de,
         buildPair env mahnrechnerTool .fr] := by
      simp [buildAll, buildToolLoop, buildLangLoop, TOOLS, LANGUAGES]
    have hpairs : ((TOOLS.map (fun t => LANGUAGES.map (fun l => (t, l)))).flatten) =
        [(verzugszinsrechnerTool, Lang.de), (verzugszinsrechnerTool, Lang.fr),
         (mahnrechnerTool, Lang.de), (mahnrechnerTool, Lang.fr)] := by
      simp [TOOLS, LANGUAGES]
    rw [buildSuccessCount, hlist, hpairs]
    refine length_filter_congr _ _ _ _ ?_
    refine List.Forall₂.cons (buildPair_spec env _ _).1 ?_
    refine List.Forall₂.cons (buildPair_spec env _ _).1 ?_
    refine List.Forall₂.cons (buildPair_spec env _ _).1 ?_
    exact List.Forall₂.cons (buildPair_spec env _ _).1 List.Forall₂.nil

/-- **C7.** For every filesystem state and (tool, language) pair whose template
loads, the assembled document is the fixed head-and-body prefix followed by one
combined script block whose content is, in this order: the vendored PDF
library, the vendored date-picker script, the application scripts of the tool in
declared list order, and the extracted inline script contents of the template with
any script containing the structured-data marker `@context` (or only
whitespace) excluded — each part separated by the fixed
whitespace.  Whenever neither the document prefix nor the combined script
content contains the characters `<script`, the whole document contains the
substring `<script` exactly once: the one combined block. -/
theorem buildOfflineHTML_script_block (fs : FS) (tool : Tool) (lang : Lang)
    (dateStr : Str) (doc : Str)
    (h : buildOfflineHTML fs tool lang dateStr = some doc) :
    doc = bundleDocFront fs tool lang dateStr ++ scriptTailOpen ++
      bundleCombinedJS fs tool lang ++ scriptTailClose ∧
    bundleCombinedJS fs tool lang =
      "\n        ".toList ++ readBundleFile fs "jspdf.min.js".toList ++
      "\n        ".toList ++ readBundleFile fs "flatpickr.min.js".toList ++
      "\n        ".toList ++
      (tool.scripts.map (fun p => readFile fs p ++ "\n".toList)).flatten ++
      "\n        ".toList ++
      ((((scanMatches scriptPlainM (readFile fs (tool.htmlFile lang))).map
          (fun m => scanRw scriptTagM [] m)).filter
        (fun c => !(jsTrim c).isEmpty && !containsCS "@context".toList c)).map
        (fun c => c ++ "\n".toList)).flatten ++
      "\n    ".toList ∧
    (countSubstr "<script".toList (bundleDocFront fs tool lang dateStr) = 0 →
     countSubstr "<script".toList (bundleCombinedJS fs tool lang) = 0 →
     countSubstr "<script".toList doc = 1) := by
  have htpl : ¬(readFile fs (tool.htmlFile lang) = []) := by
    intro h0
    rw [buildOfflineHTML, if_pos h0] at h
    exact Option.noConfusion h
  have hdoc : doc = bundleDocFront fs tool lang dateStr ++ scriptTailOpen ++
      bundleCombinedJS fs tool lang ++ scriptTailClose := by
    rw [buildOfflineHTML, if_neg htpl] at h
    exact (Option.some.inj h).symm
  refine ⟨hdoc, ?_, ?_⟩
  · rw [bundleCombinedJS, extractInlineScripts, inlineScriptsConcat_eq, appScriptsJS]
  · intro h1 h2
    obtain ⟨jR, hJ⟩ : ∃ r, bundleCombinedJS fs tool lang = '\n' :: r := ⟨_, rfl⟩
    have hshape : doc = bundleDocFront fs tool lang dateStr ++
        '\n' :: ("    <script>\n".toList ++
          '\n' :: (jR ++ '\n' :: "    </script>\n</body>\n</html>".toList)) := by
      rw [hdoc, hJ]
      rw [show scriptTailOpen = '\n' :: "    <script>\n".toList from rfl,
          show scriptTailClose = '\n' :: "    </script>\n</body>\n</html>".toList from rfl]
      simp [List.append_assoc, List.cons_append]
    rw [hshape, countSubstr_doc_split _ _ _ _ _ (by decide), h1]
    have hj0 : countSubstr "<script".toList ('\n' :: jR) = 0 := by
      rw [← hJ]; exact h2
    rw [hj0]
    have ho1 : countSubstr "<script".toList
        ('\n' :: "    <script>\n".toList) = 1 := by decide
    have ht0 : countSubstr "<script".toList
        ('\n' :: "    </script>\n</body>\n</html>".toList) = 0 := by decide
    rw [ho1, ht0]

/-- A minimal concrete template for the C7 witness: one container div and one
inline script. -/
def c7tpl : Str :=
  "<html><body><div class=\"container\"><p>hi</p></div><script>var x=1;</script></body></html>".toList

/-- A concrete filesystem holding only the German verzugszinsrechner
template. -/
def c7fs : FS where
  projectFile := fun p => if p = "de/index.html".toList then some c7tpl else none
  bundleFile := fun _ => none

/-- A concrete generation-date string. -/
def c7date : Str := "1.1.2026".toList

-- Witness for C7 at the concrete filesystem `c7fs`.
theorem buildOfflineHTML_script_block_witness :
    buildOfflineHTML c7fs verzugszinsrechnerTool .de c7date =
      some (bundleDocFront c7fs verzugszinsrechnerTool .de c7date ++
        scriptTailOpen ++ bundleCombinedJS c7fs verzugszinsrechnerTool .de ++
        scriptTailClose) ∧
    (bundleDocFront c7fs verzugszinsrechnerTool .de c7date ++ scriptTailOpen ++
        bundleCombinedJS c7fs verzugszinsrechnerTool .de ++ scriptTailClose =
      bundleDocFront c7fs verzugszinsrechnerTool .de c7date ++ scriptTailOpen ++
        bundleCombinedJS c7fs verzugszinsrechnerTool .de ++ scriptTailClose ∧
     bundleCombinedJS c7fs verzugszinsrechnerTool .de =
      "\n        ".toList ++ readBundleFile c7fs "jspdf.min.js".toList ++
      "\n        ".toList ++ readBundleFile c7fs "flatpickr.min.js".toList ++
      "\n        ".toList ++
      (verzugszinsrechnerTool.scripts.map
        (fun p => readFile c7fs p ++ "\n".toList)).flatten ++
      "\n        ".toList ++
      ((((scanMatches scriptPlainM
            (readFile c7fs (verzugszinsrechnerTool.htmlFile .de))).map
          (fun m => scanRw scriptTagM [] m)).filter
        (fun c => !(jsTrim c).isEmpty && !containsCS "@context".toList c)).map
        (fun c => c ++ "\n".toList)).flatten ++
      "\n    ".toList ∧
     (countSubstr "<script".toList
        (bundleDocFront c7fs verzugszinsrechnerTool .de c7date) = 0 →
      countSubstr "<script".toList
        (bundleCombinedJS c7fs verzugszinsrechnerTool .de) = 0 →
      countSubstr "<script".toList
        (bundleDocFront c7fs verzugszinsrechnerTool .de c7date ++ scriptTailOpen ++
          bundleCombinedJS c7fs verzugszinsrechnerTool .de ++ scriptTailClose) = 1)) :=
  ⟨by rw [buildOfflineHTML, if_neg (by decide)],
   buildOfflineHTML_script_block c7fs verzugszinsrechnerTool .de c7date _
     (by rw [buildOfflineHTML, if_neg (by decide)])⟩

/-- **C8.** For a fixed filesystem state and (tool, language) pair the bundler
output is a pure function of its inputs, and the generation-date string is the
only varying part: either the output is the same value for every date (the
missing-template and missing-body cases), or there are fixed byte strings `A`
and `B`, independent of the date, with the output equal to `A ++ date ++ B`
for every date.  Two invocations with unchanged inputs therefore produce
byte-identical documents except for the embedded date string. -/
theorem buildOfflineHTML_date_isolated (fs : FS) (tool : Tool) (lang : Lang) :
    (∃ c, ∀ dateStr, buildOfflineHTML fs tool lang dateStr = c) ∨
    (∃ A B, ∀ dateStr, buildOfflineHTML fs tool lang dateStr =
      some (A ++ dateStr ++ B)) := by
  by_cases h : readFile fs (tool.htmlFile lang) = []
  · left
    exact ⟨none, fun d => by rw [buildOfflineHTML, if_pos h]⟩
  · cases hb : bodyContentOf (readFile fs (tool.htmlFile lang)) with
    | none =>
      left
      refine ⟨some (docHead tool lang (bundleCombinedCSS fs tool lang) ++
        scriptTailOpen ++ bundleCombinedJS fs tool lang ++ scriptTailClose),
        fun d => ?_⟩
      rw [buildOfflineHTML, if_neg h]
      simp [bundleDocFront, bundleBodyPart, hb]
    | some content =>
      cases hs : splitFirst containerLit (rewriteBody content) with
      | none =>
        right
        refine ⟨docHead tool lang (bundleCombinedCSS fs tool lang) ++ bannerPre lang,
          bannerSuf ++ rewriteBody content ++ scriptTailOpen ++
            bundleCombinedJS fs tool lang ++ scriptTailClose, fun d => ?_⟩
        rw [buildOfflineHTML, if_neg h]
        simp [bundleDocFront, bundleBodyPart, hb, insertBanner, hs, bannerHTML,
          List.append_assoc]
      | some pr =>
        right
        refine ⟨docHead tool lang (bundleCombinedCSS fs tool lang) ++ pr.1 ++
          containerLit ++ bannerPre lang,
          bannerSuf ++ pr.2 ++ scriptTailOpen ++
            bundleCombinedJS fs tool lang ++ scriptTailClose, fun d => ?_⟩
        rw [buildOfflineHTML, if_neg h]
        simp [bundleDocFront, bundleBodyPart, hb, insertBanner, hs, bannerHTML,
          List.append_assoc]
